import Mathlib

/-!
# Verification of the Sub-reddit-analysis data loading and aggregation layer

Shallow embedding of the repository's core modules:

* `streamlit_utils/config_manager.py` — section/key settings file access
  (`get_reddit_extraction_config`, `get_aws_config`, `validate_config`);
* `streamlit_utils/data_loader.py` — source resolution with fallback
  (`load_from_redshift`, `load_local_data`, `load_data`) and summary
  aggregation (`get_data_summary`);
* `streamlit_utils/visualizations.py` — chart data derivations
  (time series, top posts, author frequency, engagement scatter,
  distribution, activity heatmap).

Python dataframes are modelled as a column-name list plus a list of typed
post records; external effects (warehouse queries, file listings, CSV
parses) are modelled as `Except`-valued inputs supplied by an environment;
a Python function that may raise is modelled as `Except String`-valued,
and a caught-and-logged failure becomes an explicit `none`/default result,
mirroring the `try/except` structure of the source.
-/

namespace SubredditAnalysis

/-! ## Settings file model (`config_manager.py`)

A parsed settings file is a list of sections, each a name with a list of
key/value options.  `configparser`'s `has_section`, `has_option` and `get`
are modelled directly; `get` on a missing section or key raises, which we
model as `Except.error`. -/

/-- A section of the settings file: its name and its key/value options. -/
structure ConfigSection where
  name : String
  options : List (String × String)
deriving DecidableEq, Repr

/-- A parsed settings file (the result of `configparser.read`). -/
abbrev Config := List ConfigSection

/-- Models `parser.has_section(section)`. -/
def hasSection (cfg : Config) (s : String) : Bool :=
  cfg.any (fun sec => sec.name = s)

/-- Models `parser.has_option(section, key)`. -/
def hasOption (cfg : Config) (s key : String) : Bool :=
  cfg.any (fun sec => sec.name = s && sec.options.any (fun kv => kv.1 = key))

/-- Models `parser.get(section, key)`: raises (`.error`) when the section or the
key is absent, mirroring `configparser`'s `NoSectionError`/`NoOptionError`. -/
def parserGet (cfg : Config) (s key : String) : Except String String :=
  match cfg.find? (fun sec => sec.name = s) with
  | none => .error ("NoSectionError: " ++ s)
  | some sec =>
    match sec.options.find? (fun kv => kv.1 = key) with
    | none => .error ("NoOptionError: " ++ key)
    | some kv => .ok kv.2

/-- The record returned by `get_reddit_extraction_config`. -/
structure ExtractionConfig where
  subreddit : String
  time_filter : String
  limit : Option Int
deriving DecidableEq, Repr

/-- Models `int(s)` on the limit string: raises (`.error`) when not an integer. -/
def pyInt (s : String) : Except String Int :=
  match s.toInt? with
  | none => .error ("ValueError: invalid literal for int: " ++ s)
  | some n => .ok n

/-- Models `get_reddit_extraction_config()` (config_manager.py lines 54-77), with
the already-read settings file as input.  When the `reddit_extraction`
section is absent it returns the documented defaults; otherwise it reads
the three keys with `parser.get` (which may raise) and parses the limit,
`"None"` mapping to the unbounded sentinel. -/
def get_reddit_extraction_config (cfg : Config) : Except String ExtractionConfig :=
  if ¬ hasSection cfg "reddit_extraction" then
    .ok { subreddit := "dataengineering", time_filter := "day", limit := none }
  else do
    let limitValue ← parserGet cfg "reddit_extraction" "limit"
    let subreddit ← parserGet cfg "reddit_extraction" "subreddit"
    let timeFilter ← parserGet cfg "reddit_extraction" "time_filter"
    let limit ← if limitValue = "None" then pure none else do
      let n ← pyInt limitValue
      pure (some n)
    pure { subreddit := subreddit, time_filter := timeFilter, limit := limit }

/-- The nine keys read by `get_aws_config`, in source order. -/
def awsConfigKeys : List String :=
  ["bucket_name", "redshift_username", "redshift_password", "redshift_hostname",
   "redshift_role", "redshift_port", "redshift_database", "account_id", "aws_region"]

/-- Models `get_aws_config()` (config_manager.py lines 110-132): empty mapping when
the `aws_config` section is absent; otherwise reads each of the nine keys
with `parser.get`, so a missing key raises (`.error`). -/
def get_aws_config (cfg : Config) : Except String (List (String × String)) :=
  if ¬ hasSection cfg "aws_config" then
    .ok []
  else
    awsConfigKeys.mapM (fun key => do
      let v ← parserGet cfg "aws_config" key
      pure (key, v))

/-- Required sections checked by `validate_config`. -/
def requiredSections : List String := ["aws_config", "reddit_config", "reddit_extraction"]

/-- Required keys of `[aws_config]` checked by `validate_config`. -/
def requiredAwsKeys : List String :=
  ["bucket_name", "redshift_username", "redshift_password",
   "redshift_hostname", "redshift_database"]

/-- Required keys of `[reddit_config]` checked by `validate_config`. -/
def requiredRedditKeys : List String := ["secret", "client_id"]

/-- Required keys of `[reddit_extraction]` checked by `validate_config`. -/
def requiredExtractionKeys : List String := ["subreddit", "time_filter", "limit"]

/-- The error message for a missing section. -/
def missingSectionMsg (s : String) : String :=
  "Missing required section: [" ++ s ++ "]"

/-- The error message for a missing key in a present section. -/
def missingKeyMsg (s key : String) : String :=
  "Missing required key in [" ++ s ++ "]: " ++ key

/-- The per-section missing-key errors accumulated by `validate_config`:
checked only when the section is present. -/
def sectionKeyErrors (cfg : Config) (s : String) (keys : List String) : List String :=
  if hasSection cfg s then
    (keys.filter (fun key => ¬ hasOption cfg s key)).map (missingKeyMsg s)
  else []

/-- Models `validate_config()` (config_manager.py lines 155-197), with the
already-read settings file as input (`none` models a missing file, whose
`FileNotFoundError` is caught and reported as the single error).  Errors
accumulate: first every missing required section, then the missing keys of
each present section, in source order. -/
def validate_config (cfg? : Option Config) : Bool × List String :=
  match cfg? with
  | none => (false, ["Configuration file not found"])
  | some cfg =>
    let errors :=
      (requiredSections.filter (fun s => ¬ hasSection cfg s)).map missingSectionMsg
      ++ sectionKeyErrors cfg "aws_config" requiredAwsKeys
      ++ sectionKeyErrors cfg "reddit_config" requiredRedditKeys
      ++ sectionKeyErrors cfg "reddit_extraction" requiredExtractionKeys
    (errors.length = 0, errors)

/-! ## Dataframe model (`data_loader.py`)

A dataframe is a list of column names plus a list of post records.  A
column "being present" means its name is listed in `cols`; derivations
consult `cols` exactly where the Python code tests `in df.columns`.
A raw `created_utc` cell is either parseable to a timestamp (modelled as
epoch seconds) or unparseable; `pd.to_datetime` over a column succeeds iff
every cell parses, and raises otherwise. -/

/-- A raw `created_utc` cell: the outcome of attempting to parse it. -/
inductive RawTs where
  | parseable (t : Nat)
  | unparseable (s : String)
deriving DecidableEq, Repr

/-- One post record (row). -/
structure Post where
  id : String
  title : String
  author : String
  score : Int
  num_comments : Int
  created_utc : RawTs
  over_18 : Bool
  edited : Bool
deriving DecidableEq, Repr

/-- A dataframe: its column names and its rows. -/
structure DataFrame where
  cols : List String
  rows : List Post
deriving DecidableEq, Repr

/-- Models `df.empty`. -/
def DataFrame.isEmpty (df : DataFrame) : Bool := df.rows.isEmpty

/-- Models `pd.to_datetime` applied to one cell: `none` when the cell is
unparseable (the Python call raises `ValueError`). -/
def parseTs : RawTs → Option Nat
  | .parseable t => some t
  | .unparseable _ => none

/-- Models `pd.to_datetime(df['created_utc'])` over the whole column: succeeds,
normalizing every cell, iff every cell parses; otherwise raises (`none`). -/
def toDatetime (rows : List Post) : Option (List Post) :=
  if rows.all (fun p => (parseTs p.created_utc).isSome) then
    some (rows.map (fun p =>
      { p with created_utc := .parseable ((parseTs p.created_utc).getD 0) }))
  else none

/-- The numeric sort key of a normalized timestamp (unparseable cells,
which never reach a sort in the source, key as 0). -/
def tsKey : RawTs → Nat
  | .parseable t => t
  | .unparseable _ => 0

/-- Insert a row into a list sorted descending by `key`, after every row
whose key is ≥ its own (the placement a stable descending sort uses). -/
def insertDesc {α : Type} (key : α → Int) (p : α) : List α → List α
  | [] => [p]
  | q :: qs => if key q < key p then p :: q :: qs else q :: insertDesc key p qs

/-- Stable descending sort by `key` (rows with equal keys keep their
original relative order), modelling a stable `sort_values(ascending=False)`
/ `nlargest` ordering. -/
def sortDesc {α : Type} (key : α → Int) (l : List α) : List α :=
  l.foldl (fun acc p => insertDesc key p acc) []

/-- Models `drop_duplicates(subset=['id'], keep='last')`: keeps a row iff no later
row has the same id, preserving order of the kept rows. -/
def dedupLast : List Post → List Post
  | [] => []
  | p :: ps => if ps.any (fun q => q.id = p.id) then dedupLast ps else p :: dedupLast ps

/-- Models `pd.concat(dfs, ignore_index=True)`: rows are concatenated; the column
set is the union of the inputs' columns (in first-seen order). -/
def concatDFs (dfs : List DataFrame) : DataFrame :=
  { cols := (dfs.foldl (fun acc df => acc ++ df.cols.filter (fun c => ¬ acc.contains c)) []),
    rows := dfs.foldl (fun acc df => acc ++ df.rows) [] }

/-! ## Source resolution (`data_loader.py`)

External effects are inputs: the outcome of the Redshift connection+query
is an `Except`-valued field of the environment, as is each CSV file's
parse outcome; directory listings are the lists themselves. -/

/-- The external world a load call observes: the warehouse query outcome,
and the parse outcomes of the CSV files found in the primary directory and
in the fallback (`airflow/extraction`) directory. -/
structure LoadEnv where
  awsConfigFile : Option Config
  queryResult : Except String DataFrame
  primaryFiles : List (Except String DataFrame)
  fallbackFiles : List (Except String DataFrame)

/-- Models `config["key"]` on the mapping returned by `get_aws_config`: raises
`KeyError` when the key is absent (e.g. on the empty mapping). -/
def pyIndex (m : List (String × String)) (key : String) : Except String String :=
  match m.find? (fun kv => kv.1 = key) with
  | none => .error ("KeyError: " ++ key)
  | some kv => .ok kv.2

/-- Models `load_from_redshift()` (data_loader.py lines 14-48): reads the AWS
config (`get_aws_config` raising propagates into the `try`), indexes the
five connection parameters (`KeyError` on the empty mapping), runs the
query; any error is caught, logged, and becomes `None`. -/
def load_from_redshift (env : LoadEnv) : Option DataFrame :=
  let attempt : Except String DataFrame := do
    match env.awsConfigFile with
    | none => .error "FileNotFoundError"
    | some cfg =>
      let m ← get_aws_config cfg
      let _ ← pyIndex m "redshift_database"
      let _ ← pyIndex m "redshift_username"
      let _ ← pyIndex m "redshift_password"
      let _ ← pyIndex m "redshift_hostname"
      let _ ← pyIndex m "redshift_port"
      env.queryResult
  match attempt with
  | .ok df => some df
  | .error _ => none

/-- The dedup stage of `load_local_data` (data_loader.py lines 92-94):
`drop_duplicates(subset=['id'], keep='last')`, applied only when the
combined frame has an id column. -/
def dedupStage (c : DataFrame) : DataFrame :=
  if c.cols.contains "id" then { c with rows := dedupLast c.rows } else c

/-- The normalize-and-sort tail of `load_local_data` (data_loader.py lines
96-104, with the enclosing `try/except`): when a `created_utc` column
exists, `pd.to_datetime` it — an unparseable cell raising, caught by the
outer `except`, so the whole load yields `None` — then sort descending. -/
def localFinish (c : DataFrame) : Option DataFrame :=
  if c.cols.contains "created_utc" then
    match toDatetime c.rows with
    | none => none
    | some rows =>
      some { c with rows := sortDesc (fun p => (tsKey p.created_utc : Int)) rows }
  else some c

/-- Models `load_local_data()` (data_loader.py lines 51-108): scan the primary
directory, falling back to `airflow/extraction` when it has no CSV files;
`None` when neither has files or no file parses; otherwise concatenate the
parsed files (per-file parse failures skipped), deduplicate by id keeping
the last occurrence when an id column exists, normalize `created_utc`
(a parse failure there raises and is caught by the outer `except`, giving
`None`), and sort by `created_utc` descending. -/
def load_local_data (env : LoadEnv) : Option DataFrame :=
  let csvFiles := if env.primaryFiles.isEmpty then env.fallbackFiles else env.primaryFiles
  if csvFiles.isEmpty then none
  else
    let dfs := csvFiles.filterMap (fun r => r.toOption)
    if dfs.isEmpty then none
    else localFinish (dedupStage (concatDFs dfs))

/-- Models `load_data(prefer_redshift)` (data_loader.py lines 111-136): try the
preferred source; keep its table when non-empty, otherwise return the
alternate source's result. -/
def load_data (env : LoadEnv) (prefer_redshift : Bool) : Option DataFrame :=
  if prefer_redshift then
    match load_from_redshift env with
    | some df => if ¬ df.isEmpty then some df else load_local_data env
    | none => load_local_data env
  else
    match load_local_data env with
    | some df => if ¬ df.isEmpty then some df else load_from_redshift env
    | none => load_from_redshift env

/-! ## Summary aggregation (`get_data_summary`) -/

/-- Minimum of a list of naturals, `none` on the empty list. -/
def natMin? (l : List Nat) : Option Nat :=
  l.foldl (fun acc n => match acc with | none => some n | some m => some (min m n)) none

/-- Maximum of a list of naturals, `none` on the empty list. -/
def natMax? (l : List Nat) : Option Nat :=
  l.foldl (fun acc n => match acc with | none => some n | some m => some (max m n)) none

/-- Distinct values of a list, keeping first occurrences in order. -/
def firstUniques {α : Type} [DecidableEq α] (l : List α) : List α :=
  l.foldl (fun acc a => if acc.contains a then acc else acc ++ [a]) []

/-- The fully-populated summary dictionary built by `get_data_summary` on a
non-empty dataframe.  Timestamp bounds are modelled on the parsed key;
means are exact rationals. -/
structure SummaryRec where
  total_posts : Nat
  date_start : Option Nat
  date_end : Option Nat
  total_score : Int
  total_comments : Int
  avg_score : Rat
  avg_comments : Rat
  unique_authors : Nat
  nsfw_count : Nat
  edited_count : Nat
deriving DecidableEq, Repr

/-- The Python function returns either the empty dict `{}` or the
nine-field summary dict; the two shapes are distinguished here. -/
inductive SummaryResult where
  | emptyDict
  | record (r : SummaryRec)
deriving DecidableEq, Repr

/-- Models `get_data_summary(df)` (data_loader.py lines 139-167): the empty dict
when `df` is `None` or empty, otherwise the fixed nine-field dict, each
field defaulting (to `None`/0) when its source column is absent. -/
def get_data_summary (df? : Option DataFrame) : SummaryResult :=
  match df? with
  | none => .emptyDict
  | some df =>
    if df.isEmpty then .emptyDict
    else
      let n := df.rows.length
      let scores := df.rows.map Post.score
      let comments := df.rows.map Post.num_comments
      .record {
        total_posts := n
        date_start := if df.cols.contains "created_utc" then
            natMin? (df.rows.map (fun p => tsKey p.created_utc)) else none
        date_end := if df.cols.contains "created_utc" then
            natMax? (df.rows.map (fun p => tsKey p.created_utc)) else none
        total_score := if df.cols.contains "score" then scores.sum else 0
        total_comments := if df.cols.contains "num_comments" then comments.sum else 0
        avg_score := if df.cols.contains "score" then (scores.sum : Rat) / n else 0
        avg_comments := if df.cols.contains "num_comments" then (comments.sum : Rat) / n else 0
        unique_authors := if df.cols.contains "author" then
            (firstUniques (df.rows.map Post.author)).length else 0
        nsfw_count := if df.cols.contains "over_18" then
            (df.rows.filter (fun p => p.over_18)).length else 0
        edited_count := if df.cols.contains "edited" then
            (df.rows.filter (fun p => p.edited)).length else 0 }

/-! ## Chart data derivations (`visualizations.py`)

Each derivation is embedded as the tabular data behind the figure; a
Plotly call that would raise (e.g. a `KeyError` from a missing column)
is an `Except.error`. -/

/-- Models `df[metric]` as an integer column: the numeric metrics the dashboard
plots.  Only consulted after the column-presence check the source makes
(or fails to make). -/
def getMetric (metric : String) (p : Post) : Int :=
  if metric = "score" then p.score
  else if metric = "num_comments" then p.num_comments
  else 0

/-- Insert into a list of naturals sorted ascending. -/
def insertAscNat (n : Nat) : List Nat → List Nat
  | [] => [n]
  | m :: ms => if n ≤ m then n :: m :: ms else m :: insertAscNat n ms

/-- Sort a list of naturals ascending. -/
def sortAscNat (l : List Nat) : List Nat :=
  l.foldl (fun acc n => insertAscNat n acc) []

/-- Models `create_time_series_chart(df, metric)` (visualizations.py lines
15-60), data part: empty on a `None`/empty dataframe or a missing
`created_utc` column; otherwise normalizes `created_utc` (raising on an
unparseable cell), then groups by calendar date — `groupby.agg` raising a
`KeyError` when the `metric` or `id` column is absent — returning, per
date ascending, the date, the metric sum and the post count. -/
def create_time_series_data (df? : Option DataFrame) (metric : String) :
    Except String (List (Nat × Int × Nat)) :=
  match df? with
  | none => .ok []
  | some df =>
    if df.isEmpty ∨ ¬ df.cols.contains "created_utc" then .ok []
    else
      match toDatetime df.rows with
      | none => .error "ValueError: unparseable created_utc"
      | some rows =>
        if ¬ df.cols.contains metric then .error ("KeyError: " ++ metric)
        else if ¬ df.cols.contains "id" then .error "KeyError: id"
        else
          let dates := sortAscNat (firstUniques
            (rows.map (fun p => tsKey p.created_utc / 86400)))
          .ok (dates.map (fun d =>
            let group := rows.filter (fun p => tsKey p.created_utc / 86400 = d)
            (d, (group.map (getMetric metric)).sum, group.length)))

/-- Title truncation for display: `x[:50] + '...' if len(x) > 50 else x`. -/
def shortTitle (s : String) : String :=
  if s.length > 50 then s.take 50 ++ "..." else s

/-- Models `df.nlargest(n, metric)`: the first `n` rows in descending `metric`
order, ties keeping original order (`keep='first'`). -/
def nlargest (n : Nat) (metric : String) (rows : List Post) : List Post :=
  (sortDesc (getMetric metric) rows).take n

/-- Models `create_top_posts_chart(df, n, metric)` (visualizations.py lines
63-103), data part: empty on a `None`/empty dataframe; otherwise
`df.nlargest(n, metric)[['title', metric]]` — a `KeyError` when the
`metric` or `title` column is absent — followed by the display-only title
truncation. -/
def create_top_posts_data (df? : Option DataFrame) (n : Nat) (metric : String) :
    Except String (List (String × Int)) :=
  match df? with
  | none => .ok []
  | some df =>
    if df.isEmpty then .ok []
    else if ¬ df.cols.contains metric then .error ("KeyError: " ++ metric)
    else if ¬ df.cols.contains "title" then .error "KeyError: title"
    else
      .ok ((nlargest n metric df.rows).map
        (fun p => (shortTitle p.title, getMetric metric p)))

/-- Models `create_author_chart(df, n)` (visualizations.py lines 106-140), data
part: empty on a `None`/empty dataframe or a missing `author` column;
otherwise `value_counts().head(n)` — authors with their post counts,
ordered by count descending, ties keeping first-encountered order. -/
def create_author_data (df? : Option DataFrame) (n : Nat) :
    Except String (List (String × Nat)) :=
  match df? with
  | none => .ok []
  | some df =>
    if df.isEmpty ∨ ¬ df.cols.contains "author" then .ok []
    else
      let authors := df.rows.map Post.author
      let counts := (firstUniques authors).map
        (fun a => (a, (authors.filter (fun b => b = a)).length))
      .ok ((sortDesc (fun c => (c.2 : Int)) counts).take n)

/-- Models `create_engagement_scatter(df)` (visualizations.py lines 143-173),
data part: empty on a `None`/empty dataframe; otherwise `px.scatter`
raises when the `num_comments`, `score`, `title` or `author` column it is
given is absent, and plots one (comments, score) point per row. -/
def create_engagement_scatter_data (df? : Option DataFrame) :
    Except String (List (Int × Int)) :=
  match df? with
  | none => .ok []
  | some df =>
    if df.isEmpty then .ok []
    else if ¬ (df.cols.contains "num_comments" ∧ df.cols.contains "score"
        ∧ df.cols.contains "title" ∧ df.cols.contains "author") then
      .error "ValueError: missing column"
    else
      .ok (df.rows.map (fun p => (p.num_comments, p.score)))

/-- The histogram bin (of 30 equal-width bins over `[lo, hi]`) a value
falls in, the top edge landing in the last bin. -/
def binIdx (lo hi v : Int) : Nat :=
  min 29 (((v - lo) * 30 / (hi - lo)).toNat)

/-- Models `create_distribution_chart(df, column)` (visualizations.py lines
176-205), data part: empty on a `None`/empty dataframe or a missing
column; otherwise per-bin counts over 30 equal-width bins of the column's
value range (a single bin when the range is degenerate). -/
def create_distribution_data (df? : Option DataFrame) (column : String) :
    Except String (List Nat) :=
  match df? with
  | none => .ok []
  | some df =>
    if df.isEmpty ∨ ¬ df.cols.contains column then .ok []
    else
      let values := df.rows.map (getMetric column)
      let lo := values.foldl min (values.headD 0)
      let hi := values.foldl max (values.headD 0)
      if lo = hi then .ok [values.length]
      else .ok ((List.range 30).map
        (fun i => (values.filter (fun v => binIdx lo hi v = i)).length))

/-- The day-name order the heatmap reindexes to. -/
def daysOrder : List String :=
  ["Monday", "Tuesday", "Wednesday", "Thursday", "Friday", "Saturday", "Sunday"]

/-- Models `dt.day_name()` of an epoch-seconds timestamp (epoch day 0 is a
Thursday). -/
def dayNameOf (t : Nat) : String :=
  daysOrder.getD ((t / 86400 + 3) % 7) ""

/-- Models `dt.hour` of an epoch-seconds timestamp. -/
def hourOf (t : Nat) : Nat :=
  t % 86400 / 3600

/-- The day/hour pair of a row's normalized timestamp. -/
def dayHour (p : Post) : String × Nat :=
  (dayNameOf (tsKey p.created_utc), hourOf (tsKey p.created_utc))

/-- Models `groupby(['day_of_week', 'hour']).size()`: each observed day/hour
pair with its row count. -/
def groupCounts (pairs : List (String × Nat)) : List ((String × Nat) × Nat) :=
  (firstUniques pairs).map
    (fun k => (k, (pairs.filter (fun x => x = k)).length))

/-- One cell of the pivoted matrix after `fillna(0)`: the grouped count of
the day/hour pair, 0 when the pair was not observed. -/
def pivotCell (grouped : List ((String × Nat) × Nat)) (k : String × Nat) : Nat :=
  match grouped.find? (fun e => e.1 = k) with
  | some e => e.2
  | none => 0

/-- Models `create_heatmap(df)` (visualizations.py lines 279-321), data part:
empty on a `None`/empty dataframe or a missing `created_utc` column;
otherwise normalizes `created_utc` (raising on an unparseable cell),
groups rows by (day name, hour), pivots to a matrix whose row labels are
the *observed* days reordered to Monday-through-Sunday order and whose
columns are the *observed* hours ascending, with unobserved cells of that
grid filled with 0 (`fillna(0)`). -/
def create_heatmap_data (df? : Option DataFrame) :
    Except String (List String × List Nat × List (List Nat)) :=
  match df? with
  | none => .ok ([], [], [])
  | some df =>
    if df.isEmpty ∨ ¬ df.cols.contains "created_utc" then .ok ([], [], [])
    else
      match toDatetime df.rows with
      | none => .error "ValueError: unparseable created_utc"
      | some rows =>
        let pairs := rows.map dayHour
        let grouped := groupCounts pairs
        let hourCols := sortAscNat (firstUniques (pairs.map Prod.snd))
        let dayLabels := daysOrder.filter (fun d => pairs.any (fun x => x.1 = d))
        let z := dayLabels.map (fun d => hourCols.map (fun h =>
          pivotCell grouped (d, h)))
        .ok (dayLabels, hourCols, z)

/-- Spec-side description of the heatmap's row labels: the observed days,
in Monday-through-Sunday order. -/
def heatDays (rows : List Post) : List String :=
  daysOrder.filter (fun d => (rows.map dayHour).any (fun x => x.1 = d))

/-- Spec-side description of the heatmap's columns: the observed hours,
ascending. -/
def heatHours (rows : List Post) : List Nat :=
  sortAscNat (firstUniques ((rows.map dayHour).map Prod.snd))

/-- The source the fallback resolver tries first, per the preference flag. -/
def preferredSource (env : LoadEnv) (prefer_redshift : Bool) : Option DataFrame :=
  if prefer_redshift then load_from_redshift env else load_local_data env

/-- The source the fallback resolver tries second. -/
def alternateSource (env : LoadEnv) (prefer_redshift : Bool) : Option DataFrame :=
  if prefer_redshift then load_local_data env else load_from_redshift env

/-! ## Concrete fixtures used by witnesses and counterexamples -/

/-- Fixture: a post record with the given id, score and raw timestamp. -/
def samplePost (i : String) (sc : Int) (t : RawTs) : Post :=
  { id := i, title := "Sample post title", author := "author_" ++ i,
    score := sc, num_comments := sc + 1, created_utc := t,
    over_18 := false, edited := false }

/-- Fixture: a settings file whose only flaws are a missing
`redshift_password` key and a missing `reddit_config` section. -/
def exampleCfgC8 : Config :=
  [{ name := "aws_config",
     options := [("bucket_name", "bkt"), ("redshift_username", "user"),
                 ("redshift_hostname", "host"), ("redshift_database", "db")] },
   { name := "reddit_extraction",
     options := [("subreddit", "dataengineering"), ("time_filter", "day"),
                 ("limit", "None")] }]

/-- Fixture: a settings file with no `aws_config` section. -/
def cfgNoAws : Config :=
  [{ name := "reddit_config", options := [("secret", "x"), ("client_id", "y")] }]

/-- Fixture: a settings file whose `aws_config` section has only one of
the nine keys. -/
def cfgPartialAws : Config :=
  [{ name := "aws_config", options := [("bucket_name", "b")] }]

/-- Fixture: a three-row table with scores 10, 50 and 5. -/
def dfScores : DataFrame :=
  { cols := ["id", "title", "score", "author", "num_comments", "created_utc"],
    rows := [samplePost "p1" 10 (.parseable 100),
             samplePost "p2" 50 (.parseable 200),
             samplePost "p3" 5 (.parseable 300)] }

/-- Fixture: a non-empty table lacking the `num_comments` column. -/
def dfNoComments : DataFrame :=
  { cols := ["id", "title", "score", "author"],
    rows := [samplePost "a" 5 (.parseable 0)] }

/-- Fixture: an empty table that has a `created_utc` column. -/
def dfEmptyCU : DataFrame := { cols := ["created_utc"], rows := [] }

/-- Fixture: a table whose second row has an unparseable timestamp. -/
def dfBadTs : DataFrame :=
  { cols := ["id", "title", "score", "created_utc"],
    rows := [samplePost "a" 1 (.parseable 100),
             samplePost "b" 2 (.unparseable "not-a-date")] }

/-- Fixture: a load environment whose only source is the local file
`dfBadTs`. -/
def envBadTs : LoadEnv :=
  { awsConfigFile := none, queryResult := .error "unreachable",
    primaryFiles := [.ok dfBadTs], fallbackFiles := [] }

/-- Fixture: a clean one-row local table without a `created_utc` column. -/
def dfLocalC1 : DataFrame :=
  { cols := ["id", "title", "score"], rows := [samplePost "L1" 7 (.parseable 50)] }

/-- Fixture: a load environment with no warehouse access and `dfLocalC1`
as its single local file. -/
def envC1 : LoadEnv :=
  { awsConfigFile := none, queryResult := .error "connection refused",
    primaryFiles := [.ok dfLocalC1], fallbackFiles := [] }

/-- Fixture: a load environment where both sources yield nothing. -/
def envC1b : LoadEnv :=
  { awsConfigFile := none, queryResult := .error "connection refused",
    primaryFiles := [], fallbackFiles := [] }

/-- Fixture: two tables with disjoint id sets. -/
def tableA : List Post :=
  [samplePost "a" 1 (.parseable 10), samplePost "b" 2 (.parseable 20)]

/-- Fixture: a one-row table disjoint from `tableA`. -/
def tableB : List Post := [samplePost "c" 3 (.parseable 30)]

/-- Fixture: a table sharing id "x" with `tableD`. -/
def tableC : List Post := [samplePost "x" 1 (.parseable 1)]

/-- Fixture: the later-encountered table carrying the winning row for id
"x". -/
def tableD : List Post := [samplePost "x" 99 (.parseable 2)]

/-- Fixture: a one-row table whose post falls on Monday at hour 5. -/
def dfMonday : DataFrame :=
  { cols := ["id", "title", "created_utc"],
    rows := [samplePost "a" 1 (.parseable (4 * 86400 + 5 * 3600))] }

/-- Fixture: a one-row table whose timestamp parses. -/
def dfGoodTs : DataFrame :=
  { cols := ["id", "created_utc"], rows := [samplePost "g" 1 (.parseable 42)] }

/-- Fixture: a load environment whose only local file is `dfGoodTs`. -/
def envGoodTs : LoadEnv :=
  { awsConfigFile := none, queryResult := .error "down",
    primaryFiles := [.ok dfGoodTs], fallbackFiles := [] }

/-- Fixture: a two-file load environment whose second file carries the
unparseable timestamp. -/
def envBadMulti : LoadEnv :=
  { awsConfigFile := none, queryResult := .error "down",
    primaryFiles := [.ok dfGoodTs, .ok dfBadTs], fallbackFiles := [] }

/-! ## Lemmas about the stable descending sort -/

theorem insertDesc_perm {α : Type} (key : α → Int) (p : α) (l : List α) :
    List.Perm (insertDesc key p l) (p :: l) := by
  induction l with
  | nil => simp [insertDesc]
  | cons q qs ih =>
    simp only [insertDesc]
    split
    · exact List.Perm.refl _
    · exact ((ih.cons q).trans (List.Perm.swap p q qs))

theorem mem_insertDesc {α : Type} (key : α → Int) (p a : α) (l : List α) :
    a ∈ insertDesc key p l ↔ a = p ∨ a ∈ l := by
  rw [(insertDesc_perm key p l).mem_iff, List.mem_cons]

theorem sortDesc_aux_perm {α : Type} (key : α → Int) (l acc : List α) :
    List.Perm (l.foldl (fun acc p => insertDesc key p acc) acc) (acc ++ l) := by
  induction l generalizing acc with
  | nil => simp
  | cons p ps ih =>
    rw [List.foldl_cons]
    refine (ih (insertDesc key p acc)).trans ?_
    refine ((insertDesc_perm key p acc).append_right ps).trans ?_
    simpa using (@List.perm_middle _ p acc ps).symm

theorem sortDesc_perm {α : Type} (key : α → Int) (l : List α) :
    List.Perm (sortDesc key l) l := by
  simpa using sortDesc_aux_perm key l []

theorem length_sortDesc {α : Type} (key : α → Int) (l : List α) :
    (sortDesc key l).length = l.length :=
  (sortDesc_perm key l).length_eq

theorem pairwise_insertDesc {α : Type} (key : α → Int) (p : α) (l : List α)
    (hl : l.Pairwise (fun a b => key b ≤ key a)) :
    (insertDesc key p l).Pairwise (fun a b => key b ≤ key a) := by
  induction l with
  | nil => simp [insertDesc]
  | cons q qs ih =>
    rw [List.pairwise_cons] at hl
    simp only [insertDesc]
    split
    · rename_i hlt
      refine List.Pairwise.cons ?_ (List.Pairwise.cons hl.1 hl.2)
      intro b hb
      rcases List.mem_cons.mp hb with rfl | hb
      · exact le_of_lt hlt
      · exact le_trans (hl.1 b hb) (le_of_lt hlt)
    · rename_i hge
      refine List.Pairwise.cons ?_ (ih hl.2)
      intro b hb
      rcases (mem_insertDesc key p b qs).mp hb with rfl | hb
      · exact not_lt.mp hge
      · exact hl.1 b hb

theorem pairwise_sortDesc_aux {α : Type} (key : α → Int) (l acc : List α)
    (hacc : acc.Pairwise (fun a b => key b ≤ key a)) :
    (l.foldl (fun acc p => insertDesc key p acc) acc).Pairwise
      (fun a b => key b ≤ key a) := by
  induction l generalizing acc with
  | nil => simpa using hacc
  | cons p ps ih => exact ih _ (pairwise_insertDesc key p acc hacc)

theorem pairwise_sortDesc {α : Type} (key : α → Int) (l : List α) :
    (sortDesc key l).Pairwise (fun a b => key b ≤ key a) :=
  pairwise_sortDesc_aux key l [] (List.Pairwise.nil)

theorem filter_insertDesc_ne {α : Type} (key : α → Int) (p : α) (l : List α)
    (v : Int) (hv : key p ≠ v) :
    (insertDesc key p l).filter (fun q => decide (key q = v)) =
      l.filter (fun q => decide (key q = v)) := by
  induction l with
  | nil => simp [insertDesc, hv]
  | cons q qs ih =>
    simp only [insertDesc]
    split
    · simp [List.filter_cons, hv]
    · simp only [List.filter_cons, ih]

theorem filter_insertDesc_eq {α : Type} (key : α → Int) (p : α) (l : List α)
    (hl : l.Pairwise (fun a b => key b ≤ key a)) :
    (insertDesc key p l).filter (fun q => decide (key q = key p)) =
      l.filter (fun q => decide (key q = key p)) ++ [p] := by
  induction l with
  | nil => simp [insertDesc]
  | cons q qs ih =>
    rw [List.pairwise_cons] at hl
    simp only [insertDesc]
    split
    · rename_i hlt
      have hq : key q ≠ key p := ne_of_lt hlt
      have hqs : ∀ b ∈ qs, key b ≠ key p := fun b hb =>
        ne_of_lt (lt_of_le_of_lt (hl.1 b hb) hlt)
      have h1 : (q :: qs).filter (fun r => decide (key r = key p)) = [] := by
        rw [List.filter_eq_nil_iff]
        intro b hb
        rcases List.mem_cons.mp hb with rfl | hb
        · simpa using hq
        · simpa using hqs b hb
      rw [List.filter_cons_of_pos (by simp), h1]
      simp
    · rw [List.filter_cons, List.filter_cons, ih hl.2]
      split <;> simp

theorem filter_sortDesc_aux {α : Type} (key : α → Int) (l acc : List α) (v : Int)
    (hacc : acc.Pairwise (fun a b => key b ≤ key a)) :
    (l.foldl (fun acc p => insertDesc key p acc) acc).filter
        (fun q => decide (key q = v)) =
      acc.filter (fun q => decide (key q = v)) ++
        l.filter (fun q => decide (key q = v)) := by
  induction l generalizing acc with
  | nil => simp
  | cons p ps ih =>
    have step : (p :: ps).foldl (fun acc p => insertDesc key p acc) acc
        = ps.foldl (fun acc p => insertDesc key p acc) (insertDesc key p acc) := rfl
    rw [step, ih _ (pairwise_insertDesc key p acc hacc)]
    by_cases hv : key p = v
    · subst hv
      rw [filter_insertDesc_eq key p acc hacc, List.filter_cons]
      simp
    · rw [filter_insertDesc_ne key p acc v hv, List.filter_cons]
      simp [hv]

theorem filter_sortDesc {α : Type} (key : α → Int) (l : List α) (v : Int) :
    (sortDesc key l).filter (fun q => decide (key q = v)) =
      l.filter (fun q => decide (key q = v)) := by
  simpa using filter_sortDesc_aux key l [] v List.Pairwise.nil

/-! ## Lemmas about last-wins deduplication -/

theorem getLast?_cons_of_ne_nil {α : Type} (a : α) (l : List α) (h : l ≠ []) :
    (a :: l).getLast? = l.getLast? := by
  cases l with
  | nil => exact absurd rfl h
  | cons b bs => exact List.getLast?_cons_cons

/-- Models `drop_duplicates(keep='last')`, characterised per id: the surviving
rows with a given id are exactly the last matching row of the input. -/
theorem dedupLast_filter (l : List Post) (i : String) :
    (dedupLast l).filter (fun p => decide (p.id = i)) =
      ((l.filter (fun p => decide (p.id = i))).getLast?).toList := by
  induction l with
  | nil => simp [dedupLast]
  | cons p ps ih =>
    simp only [dedupLast]
    split
    · rename_i hdup
      by_cases hp : p.id = i
      · have hne : ps.filter (fun q => decide (q.id = i)) ≠ [] := by
          rw [List.any_eq_true] at hdup
          obtain ⟨q, hq, hqi⟩ := hdup
          simp only [decide_eq_true_eq] at hqi
          intro hnil
          have hmem : q ∈ ps.filter (fun q => decide (q.id = i)) := by
            rw [List.mem_filter]
            exact ⟨hq, by simp [hqi, hp]⟩
          rw [hnil] at hmem
          exact absurd hmem (List.not_mem_nil q)
        rw [ih, List.filter_cons_of_pos (by simpa using hp),
          getLast?_cons_of_ne_nil _ _ hne]
      · rw [ih, List.filter_cons_of_neg (by simpa using hp)]
    · rename_i hdup
      by_cases hp : p.id = i
      · have hnil : ps.filter (fun q => decide (q.id = i)) = [] := by
          rw [List.filter_eq_nil_iff]
          intro q hq
          simp only [decide_eq_true_eq]
          intro hqi
          exact hdup (List.any_eq_true.mpr ⟨q, hq, by simp [hqi, hp]⟩)
        rw [List.filter_cons_of_pos (by simpa using hp), ih,
          List.filter_cons_of_pos (by simpa using hp), hnil]
        simp
      · rw [List.filter_cons_of_neg (by simpa using hp), ih,
          List.filter_cons_of_neg (by simpa using hp)]

/-- Deduplication is the identity on tables whose ids are already
pairwise distinct. -/
theorem dedupLast_eq_self (l : List Post) (h : (l.map Post.id).Nodup) :
    dedupLast l = l := by
  induction l with
  | nil => rfl
  | cons p ps ih =>
    rw [List.map_cons, List.nodup_cons] at h
    have hany : ¬ (ps.any (fun q => decide (q.id = p.id)) = true) := by
      intro hc
      rw [List.any_eq_true] at hc
      obtain ⟨q, hq, hqi⟩ := hc
      simp only [decide_eq_true_eq] at hqi
      exact h.1 (by rw [← hqi]; exact List.mem_map_of_mem Post.id hq)
    simp only [dedupLast]
    rw [if_neg hany, ih h.2]

/-- In a table with pairwise-distinct ids, filtering to a member's id
yields exactly that member. -/
theorem filter_id_eq_singleton (T : List Post) (hT : (T.map Post.id).Nodup)
    (p : Post) (hp : p ∈ T) :
    T.filter (fun q => decide (q.id = p.id)) = [p] := by
  induction T with
  | nil => cases hp
  | cons q qs ih =>
    rw [List.map_cons, List.nodup_cons] at hT
    rcases List.mem_cons.mp hp with rfl | hp'
    · rw [List.filter_cons_of_pos (by simp)]
      have hnil : qs.filter (fun r => decide (r.id = p.id)) = [] := by
        rw [List.filter_eq_nil_iff]
        intro r hr
        simp only [decide_eq_true_eq]
        intro hri
        exact hT.1 (by rw [← hri]; exact List.mem_map_of_mem Post.id hr)
      rw [hnil]
    · have hq : q.id ≠ p.id := by
        intro he
        exact hT.1 (by rw [he]; exact List.mem_map_of_mem Post.id hp')
      rw [List.filter_cons_of_neg (by simpa using hq), ih hT.2 hp']

/-! ## Lemmas about grouping and timestamp normalization -/

theorem mem_firstUniques_aux {α : Type} [DecidableEq α] (l acc : List α) (a : α) :
    (a ∈ l.foldl (fun acc x => if acc.contains x then acc else acc ++ [x]) acc) ↔
      (a ∈ acc ∨ a ∈ l) := by
  induction l generalizing acc with
  | nil => simp
  | cons b bs ih =>
    rw [List.foldl_cons, ih]
    by_cases hb : acc.contains b
    · rw [if_pos hb]
      constructor
      · rintro (h | h)
        · exact Or.inl h
        · exact Or.inr (List.mem_cons_of_mem b h)
      · rintro (h | h)
        · exact Or.inl h
        · rcases List.mem_cons.mp h with rfl | h
          · exact Or.inl (by simpa using hb)
          · exact Or.inr h
    · rw [if_neg hb]
      simp only [List.mem_append, List.mem_singleton, List.mem_cons]
      tauto

theorem mem_firstUniques {α : Type} [DecidableEq α] (l : List α) (a : α) :
    a ∈ firstUniques l ↔ a ∈ l := by
  rw [firstUniques, mem_firstUniques_aux]
  simp

theorem find?_decide_eq {α : Type} [DecidableEq α] (l : List α) (k : α) :
    l.find? (fun x => decide (x = k)) = if k ∈ l then some k else none := by
  induction l with
  | nil => simp
  | cons a as ih =>
    by_cases ha : a = k
    · subst ha
      rw [List.find?_cons_of_pos _ (by simp)]
      simp
    · rw [List.find?_cons_of_neg _ (by simpa using ha), ih]
      have : (k ∈ a :: as) ↔ (k ∈ as) := by
        rw [List.mem_cons]
        constructor
        · rintro (rfl | h)
          · exact absurd rfl ha
          · exact h
        · exact Or.inr
      rw [if_congr this rfl rfl]

/-- Looking a pair up in the grouped counts (0 when absent, as `fillna(0)`
leaves it) is the same as directly counting the pair's occurrences. -/
theorem pivotCell_groupCounts (pairs : List (String × Nat)) (k : String × Nat) :
    pivotCell (groupCounts pairs) k =
      (pairs.filter (fun x => decide (x = k))).length := by
  rw [pivotCell, groupCounts, List.find?_map]
  have hcomp : ((fun e : (String × Nat) × Nat => decide (e.1 = k)) ∘
      (fun k' => (k', (pairs.filter (fun x => decide (x = k'))).length))) =
      (fun k' => decide (k' = k)) := by
    funext k'
    rfl
  rw [hcomp, find?_decide_eq]
  by_cases hk : k ∈ firstUniques pairs
  · rw [if_pos hk]
    simp
  · rw [if_neg hk]
    rw [mem_firstUniques] at hk
    have hnil : pairs.filter (fun x => decide (x = k)) = [] := by
      rw [List.filter_eq_nil_iff]
      intro x hx
      simp only [decide_eq_true_eq]
      intro hxk
      exact hk (hxk ▸ hx)
    rw [hnil]
    rfl

/-- Models `pd.to_datetime` over a column with an unparseable cell raises. -/
theorem toDatetime_eq_none (rows : List Post)
    (h : ∃ p ∈ rows, parseTs p.created_utc = none) :
    toDatetime rows = none := by
  obtain ⟨p, hp, hnone⟩ := h
  rw [toDatetime, if_neg]
  intro hall
  rw [List.all_eq_true] at hall
  have := hall p hp
  rw [hnone] at this
  simp at this

/-- Concatenating a single parsed file is the identity. -/
theorem concatDFs_singleton (df : DataFrame) : concatDFs [df] = df := by
  rw [concatDFs]
  simp only [List.foldl_cons, List.foldl_nil, List.nil_append]
  have hc : df.cols.filter (fun c => decide (¬ ([] : List String).contains c = true))
      = df.cols := by
    rw [List.filter_eq_self]
    intro c _
    simp
  rw [hc]

/-- A single-parsed-file local load is the dedup stage followed by the
normalize-and-sort stage on that file. -/
theorem load_local_single (a : Option Config) (q : Except String DataFrame)
    (df : DataFrame) (fb : List (Except String DataFrame)) :
    load_local_data ⟨a, q, [.ok df], fb⟩ =
      localFinish (dedupStage (concatDFs [df])) := rfl

/-- A traversal fails whenever any element fails. -/
theorem mapM_except_error {α β : Type} (f : α → Except String β) (l : List α)
    (h : ∃ a ∈ l, ∃ e, f a = .error e) :
    ∃ e, l.mapM f = .error e := by
  induction l with
  | nil => simp at h
  | cons a as ih =>
    obtain ⟨b, hb, e, hbe⟩ := h
    rcases List.mem_cons.mp hb with rfl | hb'
    · refine ⟨e, ?_⟩
      rw [List.mapM_cons, hbe]
      rfl
    · rw [List.mapM_cons]
      cases hfa : f a with
      | error e' => exact ⟨e', rfl⟩
      | ok v =>
        obtain ⟨e'', he''⟩ := ih ⟨b, hb', e, hbe⟩
        rw [he'']
        exact ⟨e'', rfl⟩

/-- Reading a key that the (present or absent) section does not hold
raises. -/
theorem parserGet_error_of_not_hasOption (cfg : Config) (s k : String)
    (h : ¬ hasOption cfg s k) :
    ∃ e, parserGet cfg s k = .error e := by
  cases hf : cfg.find? (fun sec => decide (sec.name = s)) with
  | none =>
    refine ⟨"NoSectionError: " ++ s, ?_⟩
    rw [parserGet, hf]
  | some sec =>
    have hsec := List.find?_some hf
    have hmem := List.mem_of_find?_eq_some hf
    cases ho : sec.options.find? (fun kv => decide (kv.1 = k)) with
    | none =>
      refine ⟨"NoOptionError: " ++ k, ?_⟩
      rw [parserGet, hf]
      show (match sec.options.find? (fun kv => decide (kv.1 = k)) with
        | none => Except.error ("NoOptionError: " ++ k)
        | some kv => Except.ok kv.2) = Except.error ("NoOptionError: " ++ k)
      rw [ho]
    | some kv =>
      exfalso
      apply h
      rw [hasOption, List.any_eq_true]
      refine ⟨sec, hmem, ?_⟩
      have hkv := List.find?_some ho
      have hkvmem := List.mem_of_find?_eq_some ho
      simp only [decide_eq_true_eq] at hsec hkv
      simp only [Bool.and_eq_true, decide_eq_true_eq]
      exact ⟨hsec, List.any_eq_true.mpr ⟨kv, hkvmem, by simp [hkv]⟩⟩

/-- Inserting commutes with a row transformation that preserves the sort
key. -/
theorem insertDesc_map {α β : Type} (key : α → Int) (key' : β → Int)
    (g : α → β) (hk : ∀ a, key' (g a) = key a) (p : α) (l : List α) :
    insertDesc key' (g p) (l.map g) = (insertDesc key p l).map g := by
  induction l with
  | nil => simp [insertDesc]
  | cons q qs ih =>
    simp only [List.map_cons, insertDesc, hk]
    split
    · simp
    · simp only [List.map_cons, ih]

/-- Sorting commutes with a row transformation that preserves the sort
key. -/
theorem sortDesc_map {α β : Type} (key : α → Int) (key' : β → Int)
    (g : α → β) (hk : ∀ a, key' (g a) = key a) (l : List α) :
    sortDesc key' (l.map g) = (sortDesc key l).map g := by
  rw [sortDesc, sortDesc]
  have aux : ∀ (l acc : List α),
      (l.map g).foldl (fun acc p => insertDesc key' p acc) (acc.map g) =
        (l.foldl (fun acc p => insertDesc key p acc) acc).map g := by
    intro l
    induction l with
    | nil => intro acc; simp
    | cons p ps ih =>
      intro acc
      rw [List.map_cons, List.foldl_cons, List.foldl_cons,
        insertDesc_map key key' g hk p acc]
      exact ih (insertDesc key p acc)
  simpa using aux l []

/-- Models `pd.to_datetime` over an everywhere-parseable column succeeds and (in
this model, where parseable cells already carry their timestamp) leaves
the rows unchanged. -/
theorem toDatetime_of_all (rows : List Post)
    (h : ∀ p ∈ rows, (parseTs p.created_utc).isSome) :
    toDatetime rows = some rows := by
  rw [toDatetime, if_pos]
  · congr 1
    conv_rhs => rw [← List.map_id rows]
    apply List.map_congr_left
    intro p hp
    have := h p hp
    cases hcu : p.created_utc with
    | parseable t =>
      simp only [hcu, parseTs, Option.getD_some]
      rw [← hcu]
      rfl
    | unparseable s => rw [hcu] at this; simp [parseTs] at this
  · rw [List.all_eq_true]
    intro p hp
    simpa using h p hp

/-- When `pd.to_datetime` succeeds, every row of its output carries a
parseable timestamp. -/
theorem toDatetime_parseable (rows rows' : List Post)
    (h : toDatetime rows = some rows') :
    ∀ p ∈ rows', (parseTs p.created_utc).isSome := by
  by_cases hall : rows.all (fun p => (parseTs p.created_utc).isSome)
  · rw [toDatetime, if_pos hall] at h
    intro p hp
    rw [← Option.some.inj h] at hp
    obtain ⟨q, _, rfl⟩ := List.mem_map.mp hp
    simp [parseTs]
  · rw [toDatetime, if_neg hall] at h
    exact Option.noConfusion h

/-! ## Claim theorems -/

/-- Claim C9: for every settings file that exists but has no extraction
section, `get_reddit_extraction_config` returns the documented default
record — subreddit "dataengineering", time filter "day", no limit —
rather than failing. -/
theorem C9_extraction_defaults (cfg : Config)
    (h : ¬ hasSection cfg "reddit_extraction") :
    get_reddit_extraction_config cfg =
      .ok { subreddit := "dataengineering", time_filter := "day", limit := none } := by
  rw [get_reddit_extraction_config, if_pos h]

/-- Witness for C9 at a settings file holding only an `aws_config`
section. -/
theorem C9_extraction_defaults_witness :
    get_reddit_extraction_config [⟨"aws_config", []⟩] =
      .ok { subreddit := "dataengineering", time_filter := "day", limit := none } :=
  C9_extraction_defaults [⟨"aws_config", []⟩] (by decide)

/-- Claim C10: when the `aws_config` section is present but lacks one of
the nine enumerated keys, `get_aws_config` raises rather than returning a
partial mapping; the empty-mapping result applies exactly when the whole
section is absent. -/
theorem C10_aws_config_strict (cfg : Config) :
    (¬ hasSection cfg "aws_config" → get_aws_config cfg = .ok []) ∧
    (hasSection cfg "aws_config" →
      ∀ k ∈ awsConfigKeys, ¬ hasOption cfg "aws_config" k →
        ∃ e, get_aws_config cfg = .error e) := by
  constructor
  · intro h
    rw [get_aws_config, if_pos h]
  · intro hs k hk hko
    rw [get_aws_config, if_neg (not_not_intro hs)]
    apply mapM_except_error
    refine ⟨k, hk, ?_⟩
    obtain ⟨e, he⟩ := parserGet_error_of_not_hasOption cfg "aws_config" k hko
    refine ⟨e, ?_⟩
    rw [he]
    rfl

/-- Witness for C10: the empty mapping on a file with no `aws_config`
section, and an error on a file whose `aws_config` holds only
`bucket_name`. -/
theorem C10_aws_config_strict_witness :
    get_aws_config cfgNoAws = .ok [] ∧
    ∃ e, get_aws_config cfgPartialAws = .error e :=
  ⟨(C10_aws_config_strict cfgNoAws).1 (by decide),
   (C10_aws_config_strict cfgPartialAws).2 (by decide)
     "redshift_username" (by decide) (by decide)⟩

/-- Claim C8: `validate_config` reports every violation — each missing
required section and each missing required key of a present section — not
just the first, in the fixed source order; in particular a file missing
only the warehouse password key and the whole source-API section yields
exactly two errors. -/
theorem C8_validate_complete (cfg : Config) :
    (∀ s ∈ requiredSections, ¬ hasSection cfg s →
      missingSectionMsg s ∈ (validate_config (some cfg)).2) ∧
    (∀ s keys, (s, keys) ∈ [("aws_config", requiredAwsKeys),
        ("reddit_config", requiredRedditKeys),
        ("reddit_extraction", requiredExtractionKeys)] →
      hasSection cfg s → ∀ k ∈ keys, ¬ hasOption cfg s k →
        missingKeyMsg s k ∈ (validate_config (some cfg)).2) ∧
    ((validate_config (some cfg)).1 = true ↔ (validate_config (some cfg)).2 = []) ∧
    validate_config (some exampleCfgC8) =
      (false, [missingSectionMsg "reddit_config",
               missingKeyMsg "aws_config" "redshift_password"]) := by
  refine ⟨?_, ?_, ?_, by rfl⟩
  · intro s hs hns
    rw [validate_config]
    simp only [List.mem_append]
    left; left; left
    exact List.mem_map_of_mem missingSectionMsg
      (List.mem_filter.mpr ⟨hs, by simpa using hns⟩)
  · intro s keys hsk hsec k hk hko
    have hksec : missingKeyMsg s k ∈ sectionKeyErrors cfg s keys := by
      rw [sectionKeyErrors, if_pos hsec]
      exact List.mem_map_of_mem (missingKeyMsg s)
        (List.mem_filter.mpr ⟨hk, by simpa using hko⟩)
    rw [validate_config]
    simp only [List.mem_append]
    simp only [List.mem_cons, List.not_mem_nil, or_false] at hsk
    rcases hsk with h | h | h
    · injection h with h1 h2
      subst h1; subst h2
      left; left; right; exact hksec
    · injection h with h1 h2
      subst h1; subst h2
      left; right; exact hksec
    · injection h with h1 h2
      subst h1; subst h2
      right; exact hksec
  · rw [validate_config]
    simp [List.length_eq_zero]

/-- Witness for C8: both violation kinds reported on the example file. -/
theorem C8_validate_complete_witness :
    missingSectionMsg "reddit_config" ∈ (validate_config (some exampleCfgC8)).2 ∧
    missingKeyMsg "aws_config" "redshift_password" ∈
      (validate_config (some exampleCfgC8)).2 :=
  ⟨(C8_validate_complete exampleCfgC8).1 "reddit_config" (by decide) (by decide),
   (C8_validate_complete exampleCfgC8).2.1 "aws_config" requiredAwsKeys (by decide)
     (by decide) "redshift_password" (by decide) (by decide)⟩

/-- Claim C1: the resolver is a total function of the observed
environment (so it never raises); for either preference flag, a non-empty
table from the preferred source is returned as-is (row count unchanged),
and when the preferred source yields an empty or absent result — as all
internal connection, query and parse errors do in `load_from_redshift`
and `load_local_data` — the result equals the alternate source's load. -/
theorem C1_load_data_fallback (env : LoadEnv) (prefer : Bool) :
    (∀ df, preferredSource env prefer = some df → ¬ df.isEmpty →
      load_data env prefer = some df ∧
      ∃ r, load_data env prefer = some r ∧ r.rows.length = df.rows.length) ∧
    ((∀ df, preferredSource env prefer = some df → df.isEmpty) →
      load_data env prefer = alternateSource env prefer) := by
  constructor
  · intro df hpref hne
    have hld : load_data env prefer = some df := by
      cases prefer with
      | true =>
        have hr : load_from_redshift env = some df := by
          simpa [preferredSource] using hpref
        simp [load_data, hr, hne]
      | false =>
        have hr : load_local_data env = some df := by
          simpa [preferredSource] using hpref
        simp [load_data, hr, hne]
    exact ⟨hld, df, hld, rfl⟩
  · intro hemp
    cases prefer with
    | true =>
      cases hr : load_from_redshift env with
      | none => simp [load_data, alternateSource, hr]
      | some df0 =>
        have h0 : df0.isEmpty := hemp df0 (by simpa [preferredSource] using hr)
        simp [load_data, alternateSource, hr, h0]
    | false =>
      cases hr : load_local_data env with
      | none => simp [load_data, alternateSource, hr]
      | some df0 =>
        have h0 : df0.isEmpty := hemp df0 (by simpa [preferredSource] using hr)
        simp [load_data, alternateSource, hr, h0]

/-- Witness for C1: with the warehouse unreachable, a preferred non-empty
local table is returned unchanged, and with both sources empty the
preferred-remote call falls back to the alternate source's result. -/
theorem C1_load_data_fallback_witness :
    load_data envC1 false = some dfLocalC1 ∧
    load_data envC1b true = alternateSource envC1b true :=
  ⟨((C1_load_data_fallback envC1 false).1 dfLocalC1 (by decide) (by decide)).1,
   (C1_load_data_fallback envC1b true).2 (by
     intro df h
     rw [show preferredSource envC1b true = none by decide] at h
     exact Option.noConfusion h)⟩

/-- Counterexample to C2 as stated: on the empty table the summary is the
empty dict — a record with no fields at all, in particular no
`total_posts` field — not a fixed-shape record whose `total_posts` is 0. -/
theorem C2_counterexample :
    get_data_summary (some { cols := ["id", "score"], rows := [] }) =
      .emptyDict ∧
    ∀ r : SummaryRec,
      get_data_summary (some { cols := ["id", "score"], rows := [] }) ≠
        .record r := by
  refine ⟨rfl, ?_⟩
  intro r h
  rw [show get_data_summary (some { cols := ["id", "score"], rows := [] }) =
    .emptyDict from rfl] at h
  exact SummaryResult.noConfusion h

/-- Claim C2 as amended: on every non-empty table the summary is the
fixed-shape record whose `total_posts` equals the row count; on an empty
or absent table it returns the field-less empty dict — never raising and
never an absent value. -/
theorem C2_summary_total_posts (df : DataFrame) :
    (df.rows ≠ [] →
      ∃ r, get_data_summary (some df) = .record r ∧
        r.total_posts = df.rows.length) ∧
    (df.rows = [] → get_data_summary (some df) = .emptyDict) ∧
    get_data_summary none = .emptyDict := by
  refine ⟨?_, ?_, rfl⟩
  · intro hne
    rw [get_data_summary]
    rw [if_neg (by simpa [DataFrame.isEmpty, List.isEmpty_iff] using hne)]
    exact ⟨_, rfl, rfl⟩
  · intro he
    rw [get_data_summary]
    rw [if_pos (by simpa [DataFrame.isEmpty, List.isEmpty_iff] using he)]

/-- Witness for C2 on the three-row fixture table. -/
theorem C2_summary_total_posts_witness :
    ∃ r, get_data_summary (some dfScores) = .record r ∧
      r.total_posts = dfScores.rows.length :=
  (C2_summary_total_posts dfScores).1 (by decide)

/-- Counterexample to C3 as stated: on a non-empty table lacking the
`num_comments` column, the engagement scatter derivation raises (a missing
required column) instead of returning an empty result. -/
theorem C3_counterexample :
    (∃ e, create_engagement_scatter_data (some dfNoComments) = .error e) ∧
    ∀ l, create_engagement_scatter_data (some dfNoComments) ≠ .ok l := by
  refine ⟨⟨"ValueError: missing column", rfl⟩, ?_⟩
  intro l h
  rw [show create_engagement_scatter_data (some dfNoComments) =
    .error "ValueError: missing column" from rfl] at h
  exact Except.noConfusion h

/-- Claim C3 as amended: every derivation is a pure deterministic function
of the table returning an empty result on an absent or empty table, and
the derivations that guard a column — time series and heatmap on
`created_utc`, author frequency on `author`, distribution on its column —
also return empty when that column is missing; but on a non-empty table
top-N raises when the `metric` or `title` column is missing, engagement
scatter raises when any of `num_comments`, `score`, `title`, `author` is
missing, and time series (past its `created_utc` guard) raises when the
`metric` or `id` column is missing. -/
theorem C3_derivations_degrade (df : DataFrame) (n : Nat) (metric col : String) :
    (create_time_series_data none metric = .ok [] ∧
     create_top_posts_data none n metric = .ok [] ∧
     create_author_data none n = .ok [] ∧
     create_engagement_scatter_data none = .ok [] ∧
     create_distribution_data none col = .ok [] ∧
     create_heatmap_data none = .ok ([], [], [])) ∧
    (df.rows = [] →
      create_time_series_data (some df) metric = .ok [] ∧
      create_top_posts_data (some df) n metric = .ok [] ∧
      create_author_data (some df) n = .ok [] ∧
      create_engagement_scatter_data (some df) = .ok [] ∧
      create_distribution_data (some df) col = .ok [] ∧
      create_heatmap_data (some df) = .ok ([], [], [])) ∧
    (¬ df.cols.contains "created_utc" →
      create_time_series_data (some df) metric = .ok [] ∧
      create_heatmap_data (some df) = .ok ([], [], [])) ∧
    (¬ df.cols.contains "author" → create_author_data (some df) n = .ok []) ∧
    (¬ df.cols.contains col → create_distribution_data (some df) col = .ok []) ∧
    (df.rows ≠ [] → ¬ df.cols.contains metric →
      ∃ e, create_top_posts_data (some df) n metric = .error e) ∧
    (df.rows ≠ [] → df.cols.contains metric → ¬ df.cols.contains "title" →
      ∃ e, create_top_posts_data (some df) n metric = .error e) ∧
    (df.rows ≠ [] →
      ¬ (df.cols.contains "num_comments" ∧ df.cols.contains "score"
        ∧ df.cols.contains "title" ∧ df.cols.contains "author") →
      ∃ e, create_engagement_scatter_data (some df) = .error e) ∧
    (df.rows ≠ [] → df.cols.contains "created_utc" →
      (¬ df.cols.contains metric ∨ ¬ df.cols.contains "id") →
      ∃ e, create_time_series_data (some df) metric = .error e) := by
  refine ⟨⟨rfl, rfl, rfl, rfl, rfl, rfl⟩, ?_, ?_, ?_, ?_, ?_, ?_, ?_, ?_⟩
  · intro he
    have hemp : df.isEmpty = true := by
      simpa [DataFrame.isEmpty, List.isEmpty_iff] using he
    refine ⟨?_, ?_, ?_, ?_, ?_, ?_⟩
    · simp [create_time_series_data, hemp]
    · simp [create_top_posts_data, hemp]
    · simp [create_author_data, hemp]
    · simp [create_engagement_scatter_data, hemp]
    · simp [create_distribution_data, hemp]
    · simp [create_heatmap_data, hemp]
  · intro hcu
    have hcu' : ¬ (("created_utc" : String) ∈ df.cols) := by simpa using hcu
    exact ⟨by simp [create_time_series_data, hcu'],
      by simp [create_heatmap_data, hcu']⟩
  · intro hau
    have hau' : ¬ (("author" : String) ∈ df.cols) := by simpa using hau
    simp [create_author_data, hau']
  · intro hcol
    have hcol' : ¬ (col ∈ df.cols) := by simpa using hcol
    simp [create_distribution_data, hcol']
  · intro hne hm
    have hne' : ¬ (df.isEmpty = true) := by
      simpa [DataFrame.isEmpty, List.isEmpty_iff] using hne
    refine ⟨"KeyError: " ++ metric, ?_⟩
    simp only [create_top_posts_data]
    rw [if_neg hne', if_pos hm]
  · intro hne hm ht
    have hne' : ¬ (df.isEmpty = true) := by
      simpa [DataFrame.isEmpty, List.isEmpty_iff] using hne
    refine ⟨"KeyError: title", ?_⟩
    simp only [create_top_posts_data]
    rw [if_neg hne', if_neg (not_not_intro hm), if_pos ht]
  · intro hne hmiss
    have hne' : ¬ (df.isEmpty = true) := by
      simpa [DataFrame.isEmpty, List.isEmpty_iff] using hne
    refine ⟨"ValueError: missing column", ?_⟩
    simp only [create_engagement_scatter_data]
    rw [if_neg hne', if_pos hmiss]
  · intro hne hcu hmiss
    have hguard : ¬ (df.isEmpty = true ∨ ¬ df.cols.contains "created_utc" = true) := by
      push_neg
      exact ⟨by simpa [DataFrame.isEmpty, List.isEmpty_iff] using hne, hcu⟩
    simp only [create_time_series_data]
    rw [if_neg hguard]
    cases htd : toDatetime df.rows with
    | none => exact ⟨"ValueError: unparseable created_utc", rfl⟩
    | some rows =>
      by_cases hm2 : df.cols.contains metric
      · rcases hmiss with h | h
        · exact absurd hm2 h
        · refine ⟨"KeyError: id", ?_⟩
          have h' : ¬ (("id" : String) ∈ df.cols) := by simpa using h
          have hm2' : metric ∈ df.cols := by simpa using hm2
          simp [h', hm2']
      · refine ⟨"KeyError: " ++ metric, ?_⟩
        have h' : ¬ (metric ∈ df.cols) := by simpa using hm2
        simp [h']

/-- Witness for C3 on an empty table carrying a `created_utc` column. -/
theorem C3_derivations_degrade_witness :
    create_time_series_data (some dfEmptyCU) "score" = .ok [] ∧
    create_heatmap_data (some dfEmptyCU) = .ok ([], [], []) :=
  ⟨((C3_derivations_degrade dfEmptyCU 3 "score" "score").2.1 rfl).1,
   ((C3_derivations_degrade dfEmptyCU 3 "score" "score").2.1 rfl).2.2.2.2.2⟩

/-- Counterexample to C4 as stated: a local file set containing one row
with an unparseable `created_utc` makes the local load return the absent
result — the rows are not retained. -/
theorem C4_counterexample : load_local_data envBadTs = none := rfl

/-- Claim C4 as amended, over every load environment (any collection of
local files in either directory, any ids): a returned base table with a
`created_utc` column never retains a row with an unparseable timestamp;
and whenever the deduplicated concatenation of the parsed files has a
`created_utc` column and still contains an unparseable row,
`pd.to_datetime` raises, the outer handler catches it, and the whole
local load returns the absent result. -/
theorem C4_unparseable_aborts (env : LoadEnv) :
    (∀ df, load_local_data env = some df → df.cols.contains "created_utc" →
      ∀ p ∈ df.rows, (parseTs p.created_utc).isSome) ∧
    (∀ c, c = dedupStage (concatDFs
        ((if env.primaryFiles.isEmpty then env.fallbackFiles
          else env.primaryFiles).filterMap (fun r => r.toOption))) →
      c.cols.contains "created_utc" →
      (∃ p ∈ c.rows, parseTs p.created_utc = none) →
      load_local_data env = none) := by
  have hload : load_local_data env =
      (if (if env.primaryFiles.isEmpty then env.fallbackFiles
            else env.primaryFiles).isEmpty then none
       else if ((if env.primaryFiles.isEmpty then env.fallbackFiles
            else env.primaryFiles).filterMap (fun r => r.toOption)).isEmpty then
         none
       else localFinish (dedupStage (concatDFs
         ((if env.primaryFiles.isEmpty then env.fallbackFiles
            else env.primaryFiles).filterMap (fun r => r.toOption))))) := rfl
  constructor
  · intro df hdf hcu p hp
    rw [hload] at hdf
    by_cases h1 : (if env.primaryFiles.isEmpty then env.fallbackFiles
        else env.primaryFiles).isEmpty
    · rw [if_pos h1] at hdf
      exact Option.noConfusion hdf
    · rw [if_neg h1] at hdf
      by_cases h2 : ((if env.primaryFiles.isEmpty then env.fallbackFiles
          else env.primaryFiles).filterMap (fun r => r.toOption)).isEmpty
      · rw [if_pos h2] at hdf
        exact Option.noConfusion hdf
      · rw [if_neg h2, localFinish] at hdf
        by_cases hcu2 : (dedupStage (concatDFs
            ((if env.primaryFiles.isEmpty then env.fallbackFiles
              else env.primaryFiles).filterMap (fun r => r.toOption)))).cols.contains
            "created_utc"
        · rw [if_pos hcu2] at hdf
          cases htd : toDatetime (dedupStage (concatDFs
              ((if env.primaryFiles.isEmpty then env.fallbackFiles
                else env.primaryFiles).filterMap (fun r => r.toOption)))).rows with
          | none =>
            rw [htd] at hdf
            exact Option.noConfusion hdf
          | some rows =>
            rw [htd] at hdf
            have hrows : df.rows =
                sortDesc (fun p => (tsKey p.created_utc : Int)) rows :=
              congrArg DataFrame.rows (Option.some.inj hdf).symm
            rw [hrows] at hp
            exact toDatetime_parseable _ rows htd p
              ((sortDesc_perm (fun p => (tsKey p.created_utc : Int)) rows).subset hp)
        · rw [if_neg hcu2] at hdf
          have hceq := Option.some.inj hdf
          rw [← hceq] at hcu
          exact absurd hcu hcu2
  · intro c hc hcu hbad
    rw [hload]
    by_cases h1 : (if env.primaryFiles.isEmpty then env.fallbackFiles
        else env.primaryFiles).isEmpty
    · rw [if_pos h1]
    · rw [if_neg h1]
      by_cases h2 : ((if env.primaryFiles.isEmpty then env.fallbackFiles
          else env.primaryFiles).filterMap (fun r => r.toOption)).isEmpty
      · rw [if_pos h2]
      · rw [if_neg h2, ← hc, localFinish, if_pos hcu,
          toDatetime_eq_none c.rows hbad]

/-- Witness for C4: the two-file environment with a bad timestamp loads
to the absent result, and the single good-file environment's returned
row carries a parseable timestamp. -/
theorem C4_unparseable_aborts_witness :
    load_local_data envBadMulti = none ∧
    (parseTs (samplePost "g" 1 (.parseable 42)).created_utc).isSome :=
  ⟨(C4_unparseable_aborts envBadMulti).2 _ rfl (by decide) (by decide),
   (C4_unparseable_aborts envGoodTs).1 dfGoodTs (by decide) (by decide)
     (samplePost "g" 1 (.parseable 42)) (by decide)⟩

/-- Claim C5: merging local tables with per-table-unique ids (the data
model's id invariant): with disjoint id sets, last-wins deduplication of
the concatenation keeps all `len(T1) + len(T2)` rows; and any surviving
row sharing an id with a row of the later table is that later row — the
later-encountered row's values win. -/
theorem C5_dedup_merge (T1 T2 : List Post)
    (h1 : (T1.map Post.id).Nodup) (h2 : (T2.map Post.id).Nodup) :
    ((∀ p ∈ T1, ∀ q ∈ T2, p.id ≠ q.id) →
      (dedupLast (T1 ++ T2)).length = T1.length + T2.length) ∧
    (∀ p ∈ T2, ∀ q ∈ dedupLast (T1 ++ T2), q.id = p.id → q = p) := by
  constructor
  · intro hdisj
    have hnodup : ((T1 ++ T2).map Post.id).Nodup := by
      rw [List.map_append, List.nodup_append]
      refine ⟨h1, h2, ?_⟩
      intro a ha hb
      obtain ⟨p, hp, hpi⟩ := List.mem_map.mp ha
      obtain ⟨q, hq, hqi⟩ := List.mem_map.mp hb
      exact hdisj p hp q hq (hpi.trans hqi.symm)
    rw [dedupLast_eq_self _ hnodup, List.length_append]
  · intro p hp q hq hqp
    have hq' : q ∈ (dedupLast (T1 ++ T2)).filter
        (fun r => decide (r.id = p.id)) :=
      List.mem_filter.mpr ⟨hq, by simp [hqp]⟩
    rw [dedupLast_filter, List.filter_append,
      filter_id_eq_singleton T2 h2 p hp, List.getLast?_concat] at hq'
    simpa using hq'

/-- Witness for C5: the disjoint fixtures keep all three rows, and for
the shared id "x" the later table's row is the one kept. -/
theorem C5_dedup_merge_witness :
    (dedupLast (tableA ++ tableB)).length = tableA.length + tableB.length ∧
    samplePost "x" 99 (.parseable 2) = samplePost "x" 99 (.parseable 2) :=
  ⟨(C5_dedup_merge tableA tableB (by decide) (by decide)).1 (by decide),
   (C5_dedup_merge tableC tableD (by decide) (by decide)).2
     (samplePost "x" 99 (.parseable 2)) (by decide)
     (samplePost "x" 99 (.parseable 2)) (by decide) (by decide)⟩

/-- Counterexample to C6 as stated: a table with one Monday-hour-5 post
yields a 1-by-1 matrix — the other six days and twenty-three hours are
absent, not present with value zero. -/
theorem C6_counterexample :
    create_heatmap_data (some dfMonday) = .ok (["Monday"], [5], [[1]]) ∧
    ("Tuesday" : String) ∉ (["Monday"] : List String) ∧
    (["Monday"] : List String).length ≠ daysOrder.length := by
  refine ⟨rfl, by decide, by decide⟩

/-- Claim C6 as amended: the activity matrix covers the observed days
(reordered to the fixed Monday-through-Sunday order) by the observed
hours (ascending); within that grid every cell is present and equals the
direct day/hour occurrence count — zero (via `fillna(0)`) when that
observed-day/observed-hour combination has no posts — but days and hours
with no posts at all are dropped from the grid. -/
theorem C6_heatmap_observed_grid (df : DataFrame)
    (hcu : df.cols.contains "created_utc") (hne : df.rows ≠ [])
    (hall : ∀ p ∈ df.rows, (parseTs p.created_utc).isSome) :
    create_heatmap_data (some df) =
      .ok (heatDays df.rows, heatHours df.rows,
        (heatDays df.rows).map (fun d => (heatHours df.rows).map (fun h =>
          ((df.rows.map dayHour).filter
            (fun x => decide (x = (d, h)))).length))) := by
  have hguard : ¬ (df.isEmpty = true ∨ ¬ df.cols.contains "created_utc" = true) := by
    push_neg
    exact ⟨by simpa [DataFrame.isEmpty, List.isEmpty_iff] using hne, hcu⟩
  simp only [create_heatmap_data]
  rw [if_neg hguard, toDatetime_of_all df.rows hall]
  simp only [pivotCell_groupCounts, heatDays, heatHours]

/-- Witness for C6 on the one-row Monday fixture. -/
theorem C6_heatmap_observed_grid_witness :
    create_heatmap_data (some dfMonday) =
      .ok (heatDays dfMonday.rows, heatHours dfMonday.rows,
        (heatDays dfMonday.rows).map (fun d => (heatHours dfMonday.rows).map
          (fun h => ((dfMonday.rows.map dayHour).filter
            (fun x => decide (x = (d, h)))).length))) :=
  C6_heatmap_observed_grid dfMonday (by decide) (by decide) (by decide)

/-- Claim C7: the top-N selection returns exactly `min n len` rows; every
selected row's metric dominates every non-selected row's; ties keep
original table order (the selected rows of any given metric value are an
initial segment of the table's rows of that value); the chart data is the
selection mapped through the display-only 50-character-ellipsis
truncation; and re-titling rows never changes which rows are selected or
their order. -/
theorem C7_top_n_selection (df : DataFrame) (n : Nat) (metric : String)
    (hm : df.cols.contains metric) (ht : df.cols.contains "title")
    (hne : df.rows ≠ []) :
    (nlargest n metric df.rows).length = min n df.rows.length ∧
    (∀ p ∈ nlargest n metric df.rows, ∀ q ∈ df.rows,
      q ∉ nlargest n metric df.rows →
        getMetric metric q ≤ getMetric metric p) ∧
    (∀ v : Int, ∃ rest,
      df.rows.filter (fun p => decide (getMetric metric p = v)) =
        (nlargest n metric df.rows).filter
          (fun p => decide (getMetric metric p = v)) ++ rest) ∧
    create_top_posts_data (some df) n metric =
      .ok ((nlargest n metric df.rows).map
        (fun p => (shortTitle p.title, getMetric metric p))) ∧
    (∀ f : String → String,
      nlargest n metric (df.rows.map (fun p => { p with title := f p.title })) =
        (nlargest n metric df.rows).map
          (fun p => { p with title := f p.title })) := by
  refine ⟨?_, ?_, ?_, ?_, ?_⟩
  · rw [nlargest, List.length_take, length_sortDesc]
  · intro p hp q hq hnq
    have hqs : q ∈ sortDesc (getMetric metric) df.rows :=
      (sortDesc_perm (getMetric metric) df.rows).mem_iff.mpr hq
    rw [← List.take_append_drop n (sortDesc (getMetric metric) df.rows)] at hqs
    have hqd : q ∈ (sortDesc (getMetric metric) df.rows).drop n := by
      rcases List.mem_append.mp hqs with h | h
      · exact absurd h hnq
      · exact h
    have hpw := pairwise_sortDesc (getMetric metric) df.rows
    rw [← List.take_append_drop n (sortDesc (getMetric metric) df.rows)] at hpw
    exact (List.pairwise_append.mp hpw).2.2 p hp q hqd
  · intro v
    refine ⟨((sortDesc (getMetric metric) df.rows).drop n).filter
      (fun p => decide (getMetric metric p = v)), ?_⟩
    rw [← filter_sortDesc (getMetric metric) df.rows v]
    conv_lhs => rw [← List.take_append_drop n
      (sortDesc (getMetric metric) df.rows)]
    rw [List.filter_append]
    rfl
  · have hemp : ¬ (df.isEmpty = true) := by
      simpa [DataFrame.isEmpty, List.isEmpty_iff] using hne
    simp only [create_top_posts_data]
    rw [if_neg hemp, if_neg (not_not_intro hm), if_neg (not_not_intro ht)]
  · intro f
    simp only [nlargest]
    rw [sortDesc_map (getMetric metric) (getMetric metric)
      (fun p => { p with title := f p.title }) (fun a => rfl) df.rows,
      List.map_take]

/-- Witness for C7 on the fixture with scores 10, 50 and 5. -/
theorem C7_top_n_selection_witness :
    (nlargest 2 "score" dfScores.rows).length = min 2 dfScores.rows.length ∧
    create_top_posts_data (some dfScores) 2 "score" =
      .ok ((nlargest 2 "score" dfScores.rows).map
        (fun p => (shortTitle p.title, getMetric "score" p))) :=
  ⟨(C7_top_n_selection dfScores 2 "score" (by decide) (by decide) (by decide)).1,
   (C7_top_n_selection dfScores 2 "score" (by decide) (by decide)
     (by decide)).2.2.2.1⟩

end SubredditAnalysis
